import Mathlib

/-!
# A verification model of the pyFLAC streaming relay

This file embeds the byte-relay logic of `pyflac/decoder.py` and
`pyflac/encoder.py` (the glue between the pull-based libFLAC codec engine
and the push-based Python caller) as executable Lean definitions, and
proves the buffering, ordering, end-of-stream and error-propagation
properties stated in the design document.

Bytes are modelled as natural numbers, a Python `bytes` object as
`List Nat`, and the decoder's `collections.deque` of submitted chunks as
`List (List Nat)` with the head of the list being the front of the queue.
-/

/-- Result codes of the libFLAC read callback
(`FLAC__StreamDecoderReadStatus`): continue, end of stream, or abort. -/
inductive ReadStatus where
  | readContinue
  | endOfStream
  | abort
deriving DecidableEq, Repr

/-- Write-callback result codes of the decoder
(`FLAC__StreamDecoderWriteStatus`). -/
inductive WriteStatus where
  | writeContinue
  | abort
deriving DecidableEq, Repr

/-- Write-callback result codes of the encoder
(`FLAC__StreamEncoderWriteStatus`). -/
inductive EncoderWriteStatus where
  | ok
  | fatalError
deriving DecidableEq, Repr

/-- The native codec engine handle as far as the wrapper observes it:
whether `init` has succeeded (and `finish` not yet been called), and
whether a fatal condition is pending for the final flush. -/
structure EngineState where
  initialized : Bool
  lastFrameError : Bool
deriving DecidableEq, Repr

/-- The Python-visible state of a `StreamDecoder` object
(`pyflac/decoder.py`): `_error` (set by `_error_callback` or `_process`,
never cleared), `_done` (set by `finish`), `_buffer` (the deque of
submitted byte chunks, head = front), whether the background `_process`
thread is still alive, and the engine handle. -/
structure StreamDecoderState where
  error : Option String
  done : Bool
  buffer : List (List Nat)
  threadAlive : Bool
  engine : EngineState
deriving DecidableEq, Repr

/-- First conditional of `_read_callback` (decoder.py lines 344-346): if
the chunk at the front of the deque fits within the remaining byte
budget, pop it whole and reduce the budget by its length.  Returns the
bytes gathered, the remaining deque and the remaining budget.  (The
Python code only reaches this point with a non-empty deque, thanks to
the busy-wait loop; the empty case is included for totality.) -/
def popWholeChunk (buffer : List (List Nat)) (maximumBytes : Nat) :
    List Nat × List (List Nat) × Nat :=
  match buffer with
  | [] => ([], [], maximumBytes)
  | first :: rest =>
      if first.length ≤ maximumBytes then
        (first, rest, maximumBytes - first.length)
      else
        ([], first :: rest, maximumBytes)

/-- Second conditional of `_read_callback` (decoder.py lines 348-350): if
the (possibly new) front chunk is strictly larger than the remaining
budget, append its first `maximumBytes` bytes to the gathered data and
leave the suffix as the new front chunk. -/
def takeFromHead (data : List Nat) (buffer : List (List Nat)) (maximumBytes : Nat) :
    List Nat × List (List Nat) :=
  match buffer with
  | [] => (data, [])
  | head :: rest =>
      if maximumBytes < head.length then
        (data ++ head.take maximumBytes, head.drop maximumBytes :: rest)
      else
        (data, head :: rest)

/-- The slicing core of `_read_callback` (decoder.py lines 343-352): the
bytes handed to the engine and the deque left behind, for a given deque
and requested maximum. -/
def readSlice (buffer : List (List Nat)) (maximumBytes : Nat) :
    List Nat × List (List Nat) :=
  let p := popWholeChunk buffer maximumBytes
  takeFromHead p.1 p.2.1 p.2.2

/-- `_read_callback` (decoder.py lines 306-355).  Returns `none` when the
call would block in the busy-wait loop (no error, not done, empty
deque); otherwise the status code returned to the engine, the bytes
copied into the engine's buffer (`memmove`), and the updated decoder
state.  An error recorded by `_error_callback` yields the abort status
before anything else is examined; the `_done` flag set by `finish`
yields the end-of-stream status with zero bytes. -/
def readCallback (st : StreamDecoderState) (numBytes : Nat) :
    Option (ReadStatus × List Nat × StreamDecoderState) :=
  match st.error with
  | some _ => some (ReadStatus.abort, [], st)
  | none =>
      if st.done then
        some (ReadStatus.endOfStream, [], st)
      else
        match st.buffer with
        | [] => none
        | _ :: _ =>
            some (ReadStatus.readContinue, (readSlice st.buffer numBytes).1,
              { st with buffer := (readSlice st.buffer numBytes).2 })

/-- `StreamDecoder.process` (decoder.py lines 193-203): append the given
chunk to the deque of pending input.  A total function: the Python body
is a single `deque.append`, which cannot raise and does not wait. -/
def StreamDecoder.process (st : StreamDecoderState) (data : List Nat) :
    StreamDecoderState :=
  { st with buffer := st.buffer ++ [data] }

/-- An event of the relay: the caller submitting a chunk via
`StreamDecoder.process`, or the engine pulling up to `numBytes` bytes
via `_read_callback`. -/
inductive RelayEvent where
  | submit (chunk : List Nat)
  | pull (numBytes : Nat)

/-- A relay execution trace: the current decoder state, the byte strings
handed to the engine by the successive read-callback invocations, the
status codes those invocations returned, and the chunks submitted so
far. -/
structure RelayTrace where
  st : StreamDecoderState
  delivered : List (List Nat)
  statuses : List ReadStatus
  submitted : List (List Nat)

/-- One event of the relay.  A pull that would block (`readCallback`
returns `none`) hands no bytes to the engine and leaves the state
unchanged: in the implementation the callback keeps sleeping until a
submission arrives, which the trace then records as later events. -/
def relayStep (tr : RelayTrace) : RelayEvent → RelayTrace
  | RelayEvent.submit c =>
      { tr with st := StreamDecoder.process tr.st c,
                submitted := tr.submitted ++ [c] }
  | RelayEvent.pull n =>
      match readCallback tr.st n with
      | none => tr
      | some (status, data, st2) =>
          { tr with st := st2,
                    delivered := tr.delivered ++ [data],
                    statuses := tr.statuses ++ [status] }

/-- Run a sequence of relay events from a given trace. -/
def relayRun (tr : RelayTrace) (es : List RelayEvent) : RelayTrace :=
  es.foldl relayStep tr

/-- The trace of a freshly constructed `StreamDecoder`: no error, not
done, empty deque, background thread running, engine initialised. -/
def initialTrace : RelayTrace :=
  { st := { error := none, done := false, buffer := [],
            threadAlive := true,
            engine := { initialized := true, lastFrameError := false } },
    delivered := [], statuses := [], submitted := [] }

-- ## Order preservation of the slicing core

theorem popWholeChunk_flatten (buffer : List (List Nat)) (n : Nat) :
    (popWholeChunk buffer n).1 ++ (popWholeChunk buffer n).2.1.flatten
      = buffer.flatten := by
  unfold popWholeChunk
  match buffer with
  | [] => simp
  | first :: rest =>
      by_cases h : first.length ≤ n <;> simp [h]

theorem takeFromHead_flatten (data : List Nat) (buffer : List (List Nat)) (n : Nat) :
    (takeFromHead data buffer n).1 ++ (takeFromHead data buffer n).2.flatten
      = data ++ buffer.flatten := by
  unfold takeFromHead
  match buffer with
  | [] => simp
  | head :: rest =>
      by_cases h : n < head.length
      · simp only [h, if_true, List.flatten_cons]
        rw [List.append_assoc, ← List.append_assoc (List.take n head),
          List.take_append_drop]
      · simp [h]

theorem readSlice_flatten (buffer : List (List Nat)) (n : Nat) :
    (readSlice buffer n).1 ++ (readSlice buffer n).2.flatten = buffer.flatten := by
  unfold readSlice
  rw [takeFromHead_flatten]
  exact popWholeChunk_flatten buffer n

-- ## Byte-count bound of the slicing core

theorem popWholeChunk_length (buffer : List (List Nat)) (n : Nat) :
    (popWholeChunk buffer n).1.length + (popWholeChunk buffer n).2.2 = n := by
  unfold popWholeChunk
  match buffer with
  | [] => simp
  | first :: rest =>
      by_cases h : first.length ≤ n
      · simp only [h, if_true]
        omega
      · simp [h]

theorem takeFromHead_length (data : List Nat) (buffer : List (List Nat)) (n : Nat) :
    (takeFromHead data buffer n).1.length ≤ data.length + n := by
  unfold takeFromHead
  match buffer with
  | [] => simp
  | head :: rest =>
      by_cases h : n < head.length
      · simp only [h, if_true, List.length_append, List.length_take]
        omega
      · simp [h]

theorem readSlice_length_le (buffer : List (List Nat)) (n : Nat) :
    (readSlice buffer n).1.length ≤ n := by
  have h1 := popWholeChunk_length buffer n
  have h2 := takeFromHead_length (popWholeChunk buffer n).1
    (popWholeChunk buffer n).2.1 (popWholeChunk buffer n).2.2
  have h3 : (readSlice buffer n).1
      = (takeFromHead (popWholeChunk buffer n).1
          (popWholeChunk buffer n).2.1 (popWholeChunk buffer n).2.2).1 := rfl
  rw [h3]
  omega

-- ## The read callback preserves the byte stream

theorem readCallback_flatten (st : StreamDecoderState) (n : Nat)
    (status : ReadStatus) (data : List Nat) (st2 : StreamDecoderState)
    (h : readCallback st n = some (status, data, st2)) :
    data ++ st2.buffer.flatten = st.buffer.flatten := by
  unfold readCallback at h
  match he : st.error with
  | some e =>
      rw [he] at h
      cases h
      simp
  | none =>
      rw [he] at h
      by_cases hd : st.done
      · simp [hd] at h
        obtain ⟨_, h2, h3⟩ := h
        subst h2; subst h3
        simp
      · simp [hd] at h
        match hb : st.buffer with
        | [] => rw [hb] at h; cases h
        | c :: rest =>
            rw [hb] at h
            cases h
            have := readSlice_flatten (c :: rest) n
            simpa using this

theorem readCallback_length_le (st : StreamDecoderState) (n : Nat)
    (status : ReadStatus) (data : List Nat) (st2 : StreamDecoderState)
    (h : readCallback st n = some (status, data, st2)) :
    data.length ≤ n := by
  unfold readCallback at h
  match he : st.error with
  | some e =>
      rw [he] at h
      cases h
      simp
  | none =>
      rw [he] at h
      by_cases hd : st.done
      · simp [hd] at h
        obtain ⟨_, h2, _⟩ := h
        subst h2
        simp
      · simp [hd] at h
        match hb : st.buffer with
        | [] => rw [hb] at h; cases h
        | c :: rest =>
            rw [hb] at h
            cases h
            exact readSlice_length_le (c :: rest) n

-- ## The trace invariant

/-- The bytes handed to the engine so far, followed by the bytes still
pending in the deque, are exactly the bytes submitted so far. -/
def traceInv (tr : RelayTrace) : Prop :=
  tr.delivered.flatten ++ tr.st.buffer.flatten = tr.submitted.flatten

theorem relayStep_inv (tr : RelayTrace) (e : RelayEvent) (h : traceInv tr) :
    traceInv (relayStep tr e) := by
  unfold traceInv at h ⊢
  match e with
  | RelayEvent.submit c =>
      simp only [relayStep, StreamDecoder.process]
      simp only [List.flatten_append, List.flatten_cons, List.flatten_nil,
        List.append_nil]
      rw [← List.append_assoc, h]
  | RelayEvent.pull n =>
      simp only [relayStep]
      match hc : readCallback tr.st n with
      | none => exact h
      | some (status, data, st2) =>
          simp only [List.flatten_append, List.flatten_cons, List.flatten_nil,
            List.append_nil]
          rw [List.append_assoc, readCallback_flatten tr.st n status data st2 hc, h]

theorem relayRun_inv (tr : RelayTrace) (es : List RelayEvent) (h : traceInv tr) :
    traceInv (relayRun tr es) := by
  induction es generalizing tr with
  | nil => exact h
  | cons e es ih => exact ih (relayStep tr e) (relayStep_inv tr e h)

-- ## Repeated pulls

/-- A sequence of read-callback invocations from a given state,
recording each invocation's status and delivered bytes.  A blocked
invocation (`none`, impossible in the terminal states studied below)
is skipped. -/
def runPulls (st : StreamDecoderState) :
    List Nat → List (ReadStatus × List Nat) × StreamDecoderState
  | [] => ([], st)
  | n :: ns =>
      match readCallback st n with
      | none => runPulls st ns
      | some (status, data, st2) =>
          let r := runPulls st2 ns
          ((status, data) :: r.1, r.2)

-- ## Finishing

/-- Modelled from the spec: `FLAC__stream_decoder_finish` /
`FLAC__stream_encoder_finish`, the codec engine's finalize operation.
The engine is external native code whose sources are not part of this
repository; per the design document (§4.3, §6) and the wrappers'
docstrings, finishing flushes the engine, releases its resources,
returns it to the uninitialized state, and reports success unless a
fatal condition hit the final flush; finishing an already-uninitialized
engine is a no-op that reports success. -/
def engineFinish (e : EngineState) : Bool × EngineState :=
  if e.initialized then
    (!e.lastFrameError, { initialized := false, lastFrameError := false })
  else
    (true, e)

/-- `_Encoder.finish` (encoder.py lines 121-132): delegate to the engine
and return its boolean result. -/
def Encoder.finish (e : EngineState) : Bool × EngineState :=
  engineFinish e

/-- `StreamDecoder.finish` (decoder.py lines 205-231).  The leading
busy-wait loop only sleeps while the live worker thread drains the
deque and touches no Python-visible field (the worker's concurrent
consumption is recorded separately, by `relayStep` pull events; with
the worker already joined — as on any call after the first — the loop
exits at once).  The method then sets `_done`, finishes the engine,
joins the worker thread, and raises `DecoderProcessException (self.error)`
exactly when `_error` is set.  The first component is `some message`
when the call raises; the second is the state the object is left in
(the mutations precede the raise). -/
def StreamDecoder.finish (st : StreamDecoderState) :
    Option String × StreamDecoderState :=
  let st2 : StreamDecoderState :=
    { st with done := true,
              engine := (engineFinish st.engine).2,
              threadAlive := false }
  (st2.error, st2)

-- ## The write callbacks

/-- `np.int32 → np.int16` conversion used by the decoder write callback
(`astype(np.int16)`): keep the least significant 16 bits, two's
complement. -/
def toInt16 (x : Int) : Int :=
  (x + 32768) % 65536 - 32768

/-- The header fields of a decoded FLAC frame read by
`_write_callback` in decoder.py. -/
structure FrameHeader where
  blocksize : Nat
  channels : Nat
  bitsPerSample : Nat
  sampleRate : Nat
deriving DecidableEq, Repr

/-- The audio array handed to the user callback by the decoder's
`_write_callback`: each of `buffer`'s channel arrays is truncated to
`blocksize` 32-bit samples, cast to int16, and the channels are
column-stacked, giving `blocksize` rows of `channels` samples. -/
def decodedAudio (frame : FrameHeader) (buffer : List (List Int)) :
    List (List Int) :=
  let chans := (List.range frame.channels).map
    (fun ch => ((buffer.getD ch []).take frame.blocksize).map toInt16)
  (List.range frame.blocksize).map (fun i => chans.map (fun c => c.getD i 0))

/-- The body of the decoder's `_write_callback` (decoder.py lines
385-428), before the cffi `error=` net: raises `ValueError` when the
frame is not 16-bit, otherwise forwards the column-stacked audio and
the header metadata to the user callback (which may itself raise) and
returns the continue status. -/
def decoderWriteCallbackBody (frame : FrameHeader) (buffer : List (List Int))
    (callback : List (List Int) → Nat → Nat → Nat → Except String Unit) :
    Except String WriteStatus :=
  if frame.bitsPerSample ≠ 16 then
    Except.error "Only int16 data type is supported"
  else
    match callback (decodedAudio frame buffer) frame.sampleRate frame.channels
        frame.blocksize with
    | Except.ok _ => Except.ok WriteStatus.writeContinue
    | Except.error e => Except.error e

/-- The decoder's `_write_callback` as the engine sees it:
`@_ffi.def_extern(error=FLAC__STREAM_DECODER_WRITE_STATUS_ABORT)` turns
any Python exception escaping the body into the abort status. -/
def decoderWriteCallback (frame : FrameHeader) (buffer : List (List Int))
    (callback : List (List Int) → Nat → Nat → Nat → Except String Unit) :
    WriteStatus :=
  match decoderWriteCallbackBody frame buffer callback with
  | Except.ok s => s
  | Except.error _ => WriteStatus.abort

/-- The body of the encoder's `_write_callback` (encoder.py lines
425-446): copy the first `numBytes` bytes out of the engine's buffer,
hand them with the metadata to the user callback (which may raise) and
return the ok status. -/
def encoderWriteCallbackBody (buffer : List Nat)
    (numBytes numSamples currentFrame : Nat)
    (callback : List Nat → Nat → Nat → Nat → Except String Unit) :
    Except String EncoderWriteStatus :=
  match callback (buffer.take numBytes) numBytes numSamples currentFrame with
  | Except.ok _ => Except.ok EncoderWriteStatus.ok
  | Except.error e => Except.error e

/-- The encoder's `_write_callback` as the engine sees it:
`@_ffi.def_extern(error=FLAC__STREAM_ENCODER_WRITE_STATUS_FATAL_ERROR)`
turns any Python exception escaping the body into the fatal-error
status. -/
def encoderWriteCallback (buffer : List Nat)
    (numBytes numSamples currentFrame : Nat)
    (callback : List Nat → Nat → Nat → Nat → Except String Unit) :
    EncoderWriteStatus :=
  match encoderWriteCallbackBody buffer numBytes numSamples currentFrame callback with
  | Except.ok s => s
  | Except.error _ => EncoderWriteStatus.fatalError

-- ## Claim theorems

/-- C1: for every interleaving of chunk submissions via
`StreamDecoder.process` and read-callback pulls, the concatenation of
the byte strings handed to the codec engine, followed by the bytes
still pending in the deque (a partially consumed chunk's suffix
remainder first), equals the concatenation of the submitted chunks in
submission order; in particular, once the deque is drained, the bytes
delivered equal the bytes submitted exactly — no byte is delivered
twice or dropped. -/
theorem relay_order_preservation (es : List RelayEvent) :
    (relayRun initialTrace es).delivered.flatten
        ++ (relayRun initialTrace es).st.buffer.flatten
      = (relayRun initialTrace es).submitted.flatten
    ∧ ((relayRun initialTrace es).st.buffer = [] →
        (relayRun initialTrace es).delivered.flatten
          = (relayRun initialTrace es).submitted.flatten) := by
  have h : traceInv (relayRun initialTrace es) :=
    relayRun_inv initialTrace es (by simp [traceInv, initialTrace])
  refine ⟨h, fun hb => ?_⟩
  have h2 := h
  unfold traceInv at h2
  rw [hb] at h2
  simpa using h2

/-- Witness for C1: submitting [1,2,3] and [4,5] and pulling 2, 10, 10
bytes drains the deque and delivers exactly the submitted bytes. -/
theorem relay_order_preservation_witness :
    (relayRun initialTrace [RelayEvent.submit [1, 2, 3], RelayEvent.submit [4, 5],
        RelayEvent.pull 2, RelayEvent.pull 10, RelayEvent.pull 10]).delivered.flatten
      = (relayRun initialTrace [RelayEvent.submit [1, 2, 3], RelayEvent.submit [4, 5],
        RelayEvent.pull 2, RelayEvent.pull 10, RelayEvent.pull 10]).submitted.flatten :=
  (relay_order_preservation
    [RelayEvent.submit [1, 2, 3], RelayEvent.submit [4, 5],
     RelayEvent.pull 2, RelayEvent.pull 10, RelayEvent.pull 10]).2 (by decide)

/-- C2: whenever the read callback answers a request for at most `n`
bytes, the byte string copied into the engine's buffer — whose length is
also what is reported back through `num_bytes[0]` — holds at most `n`
bytes, never more. -/
theorem readCallback_no_over_delivery (st : StreamDecoderState) (n : Nat)
    (status : ReadStatus) (data : List Nat) (st2 : StreamDecoderState)
    (h : readCallback st n = some (status, data, st2)) :
    data.length ≤ n :=
  readCallback_length_le st n status data st2 h

/-- Witness for C2: a request for 2 bytes against a pending 3-byte chunk
delivers exactly the 2-byte prefix. -/
theorem readCallback_no_over_delivery_witness :
    ([1, 2] : List Nat).length ≤ 2 :=
  readCallback_no_over_delivery
    { error := none, done := false, buffer := [[1, 2, 3]], threadAlive := true,
      engine := { initialized := true, lastFrameError := false } }
    2 ReadStatus.readContinue [1, 2]
    { error := none, done := false, buffer := [[3]], threadAlive := true,
      engine := { initialized := true, lastFrameError := false } }
    (by decide)

/-- C10: `StreamDecoder.process` only appends the given chunk to the
pending-input deque; the error flag, done flag, thread and engine state
are untouched.  It is a total function into `StreamDecoderState` — the
Python body is a single `deque.append`, which never raises and returns
without waiting for any of the data to be consumed. -/
theorem process_only_appends (st : StreamDecoderState) (data : List Nat) :
    (StreamDecoder.process st data).buffer = st.buffer ++ [data] ∧
    (StreamDecoder.process st data).error = st.error ∧
    (StreamDecoder.process st data).done = st.done ∧
    (StreamDecoder.process st data).threadAlive = st.threadAlive ∧
    (StreamDecoder.process st data).engine = st.engine :=
  ⟨rfl, rfl, rfl, rfl, rfl⟩

/-- Scenario B of the design document: chunks of sizes 50 and 4000 are
submitted, every pull requests 1024 bytes, and a terminating empty
chunk is submitted before the fifth pull. -/
def scenarioB : List RelayEvent :=
  [RelayEvent.submit (List.replicate 50 1),
   RelayEvent.submit (List.replicate 4000 2),
   RelayEvent.pull 1024, RelayEvent.pull 1024,
   RelayEvent.pull 1024, RelayEvent.pull 1024,
   RelayEvent.submit [],
   RelayEvent.pull 1024]

/-- C3 as stated is false on the code: in Scenario B the fourth pull
returns 978 bytes — 50 + 4000 - 3·1024 = 978, not 878 — and the fifth
pull does not signal end-of-stream (the empty chunk is consumed and the
continue status returned; only `finish` setting the done flag produces
the end-of-stream status). -/
theorem scenarioB_refuted :
    ¬ ((((relayRun initialTrace scenarioB).delivered.map List.length).take 4
          = [1024, 1024, 1024, 878])
        ∧ (relayRun initialTrace scenarioB).statuses.getLast?
            = some ReadStatus.endOfStream) := by
  simp [-List.reduceReplicate, scenarioB, relayRun, relayStep, readCallback,
    readSlice, popWholeChunk, takeFromHead, StreamDecoder.process, initialTrace,
    Nat.min_def]

/-- C3 amended: in Scenario B the first four pulls return 1024, 1024,
1024 and 978 bytes (total 4050 = 50 + 4000); after the terminating
empty submission the fifth pull returns 0 bytes with the continue
status, and the deque is drained. -/
theorem scenarioB_behaviour :
    ((relayRun initialTrace scenarioB).delivered.map List.length
        = [1024, 1024, 1024, 978, 0])
    ∧ (relayRun initialTrace scenarioB).statuses
        = [ReadStatus.readContinue, ReadStatus.readContinue, ReadStatus.readContinue,
           ReadStatus.readContinue, ReadStatus.readContinue]
    ∧ (relayRun initialTrace scenarioB).st.buffer = [] := by
  simp [-List.reduceReplicate, scenarioB, relayRun, relayStep, readCallback,
    readSlice, popWholeChunk, takeFromHead, StreamDecoder.process, initialTrace,
    Nat.min_def]

/-- C4 as stated is false on the code: obtaining the empty chunk from
the pending input does not set end-of-stream; the callback pops the
empty chunk and returns the continue code with 0 bytes. -/
theorem emptyChunk_refuted :
    readCallback
        { error := none, done := false, buffer := [[]], threadAlive := true,
          engine := { initialized := true, lastFrameError := false } } 1024
      = some (ReadStatus.readContinue, [],
          { error := none, done := false, buffer := [], threadAlive := true,
            engine := { initialized := true, lastFrameError := false } })
    ∧ ReadStatus.readContinue ≠ ReadStatus.endOfStream := by
  decide

/-- C4 amended: an empty chunk obtained from the pending input is simply
consumed, the callback returning the continue code together with
whatever bytes the second conditional gathers (0 bytes when nothing
qualifies); the end-of-stream code — 0 bytes returned, and never the
abort code — is produced exactly when `finish` has set the done flag
(no error recorded). -/
theorem endOfStream_signalling (st : StreamDecoderState) (n : Nat)
    (he : st.error = none) :
    (st.done = true →
        readCallback st n = some (ReadStatus.endOfStream, [], st)
        ∧ ReadStatus.endOfStream ≠ ReadStatus.abort)
    ∧ (∀ rest, st.done = false → st.buffer = [] :: rest →
        readCallback st n
          = some (ReadStatus.readContinue, (takeFromHead [] rest n).1,
              { st with buffer := (takeFromHead [] rest n).2 })) := by
  constructor
  · intro hd
    refine ⟨?_, by decide⟩
    simp [readCallback, he, hd]
  · intro rest hd hb
    simp only [readCallback, he, hd, hb]
    simp [readSlice, popWholeChunk]

/-- Witness for the amended C4: a decoder whose `finish` has set the
done flag answers a pull of 7 bytes with the end-of-stream code and no
bytes. -/
theorem endOfStream_signalling_witness :
    readCallback
        { error := none, done := true, buffer := [], threadAlive := false,
          engine := { initialized := false, lastFrameError := false } } 7
      = some (ReadStatus.endOfStream, [],
          { error := none, done := true, buffer := [], threadAlive := false,
            engine := { initialized := false, lastFrameError := false } })
    ∧ ReadStatus.endOfStream ≠ ReadStatus.abort :=
  (endOfStream_signalling
    { error := none, done := true, buffer := [], threadAlive := false,
      engine := { initialized := false, lastFrameError := false } } 7 rfl).1 rfl

/-- C5 as stated is false on the code: a pending chunk holding more
bytes than the current request — the caller having supplied more than
the engine asked for — is not treated as an abort condition; the
callback serves the 2-byte prefix of the 3-byte chunk, returns the
continue code, and silently carries the excess byte for later
requests. -/
theorem oversupply_refuted :
    readCallback
        { error := none, done := false, buffer := [[1, 2, 3]], threadAlive := true,
          engine := { initialized := true, lastFrameError := false } } 2
      = some (ReadStatus.readContinue, [1, 2],
          { error := none, done := false, buffer := [[3]], threadAlive := true,
            engine := { initialized := true, lastFrameError := false } })
    ∧ ReadStatus.readContinue ≠ ReadStatus.abort := by
  decide

/-- C5 amended: when the front pending chunk holds more bytes than the
current request, the relay serves exactly the `n` requested bytes with
the continue code — never the abort code — and silently carries the
excess as the new front of the pending input, to be served by later
requests. -/
theorem excess_carried (st : StreamDecoderState) (n : Nat) (c : List Nat)
    (rest : List (List Nat)) (he : st.error = none) (hd : st.done = false)
    (hb : st.buffer = c :: rest) (hn : n < c.length) :
    readCallback st n
      = some (ReadStatus.readContinue, c.take n,
          { st with buffer := c.drop n :: rest })
    ∧ (c.take n).length = n
    ∧ ReadStatus.readContinue ≠ ReadStatus.abort := by
  refine ⟨?_, by simp [List.length_take]; omega, by decide⟩
  simp only [readCallback, he, hd, hb]
  simp [readSlice, popWholeChunk, takeFromHead, Nat.not_le.mpr hn, hn]

/-- Witness for the amended C5: a pull of 1 byte against the pending
chunk [5, 6, 7] serves [5] and carries [6, 7]. -/
theorem excess_carried_witness :
    readCallback
        { error := none, done := false, buffer := [[5, 6, 7]], threadAlive := true,
          engine := { initialized := true, lastFrameError := false } } 1
      = some (ReadStatus.readContinue, [5],
          { error := none, done := false, buffer := [[6, 7]], threadAlive := true,
            engine := { initialized := true, lastFrameError := false } })
    ∧ ([5, 6, 7] : List Nat).take 1 = [5] ∧ True :=
  have h := excess_carried
    { error := none, done := false, buffer := [[5, 6, 7]], threadAlive := true,
      engine := { initialized := true, lastFrameError := false } }
    1 [5, 6, 7] [] rfl rfl rfl (by decide)
  ⟨h.1, by decide, trivial⟩

/-- C6: once a decode error has been recorded (`_error` set by
`_error_callback`), every read-callback invocation — this one and all
subsequent ones — returns the abort code, consumes nothing from the
pending input and changes no state; likewise once the done flag has
signalled end-of-stream, every invocation returns the end-of-stream
code with 0 bytes and consumes nothing. -/
theorem terminal_states (st : StreamDecoderState) (ns : List Nat) :
    (st.error.isSome = true →
        runPulls st ns = (ns.map fun _ => (ReadStatus.abort, []), st))
    ∧ (st.error = none → st.done = true →
        runPulls st ns = (ns.map fun _ => (ReadStatus.endOfStream, []), st)) := by
  constructor
  · intro h
    induction ns with
    | nil => simp [runPulls]
    | cons n ns ih =>
        match he : st.error with
        | some e =>
            simp only [runPulls, readCallback, he]
            rw [ih]
            simp
        | none => rw [he] at h; simp at h
  · intro he hd
    induction ns with
    | nil => simp [runPulls]
    | cons n ns ih =>
        simp only [runPulls, readCallback, he, hd, if_true]
        rw [ih]
        simp

/-- Witness for C6: with an error recorded, two successive pulls both
abort and leave the two pending bytes untouched. -/
theorem terminal_states_witness :
    runPulls
        { error := some "fatal", done := false, buffer := [[1, 2]],
          threadAlive := true,
          engine := { initialized := true, lastFrameError := false } }
        [10, 20]
      = ([(ReadStatus.abort, []), (ReadStatus.abort, [])],
          { error := some "fatal", done := false, buffer := [[1, 2]],
            threadAlive := true,
            engine := { initialized := true, lastFrameError := false } }) :=
  (terminal_states
    { error := some "fatal", done := false, buffer := [[1, 2]],
      threadAlive := true,
      engine := { initialized := true, lastFrameError := false } }
    [10, 20]).1 rfl

/-- C7: if the user's consumer raises while an output chunk is being
forwarded, the relay hands the abort status (decoder) or the
fatal-error status (encoder) back to the engine — the cffi
`def_extern(error=...)` net — instead of swallowing the exception. -/
theorem writeCallback_consumer_exception
    (frame : FrameHeader) (buffer : List (List Int))
    (dcb : List (List Int) → Nat → Nat → Nat → Except String Unit)
    (ebuf : List Nat) (numBytes numSamples currentFrame : Nat)
    (ecb : List Nat → Nat → Nat → Nat → Except String Unit)
    (e1 e2 : String)
    (h16 : frame.bitsPerSample = 16)
    (hd : dcb (decodedAudio frame buffer) frame.sampleRate frame.channels
        frame.blocksize = Except.error e1)
    (he : ecb (ebuf.take numBytes) numBytes numSamples currentFrame
        = Except.error e2) :
    decoderWriteCallback frame buffer dcb = WriteStatus.abort
    ∧ encoderWriteCallback ebuf numBytes numSamples currentFrame ecb
        = EncoderWriteStatus.fatalError := by
  constructor
  · simp only [decoderWriteCallback, decoderWriteCallbackBody, h16, hd]
    simp
  · simp only [encoderWriteCallback, encoderWriteCallbackBody, he]

/-- Witness for C7: consumers that always raise make the decoder
callback abort and the encoder callback report a fatal error. -/
theorem writeCallback_consumer_exception_witness :
    decoderWriteCallback
        ({ blocksize := 2, channels := 1, bitsPerSample := 16,
           sampleRate := 8000 }) [[1, 2]]
        (fun _ _ _ _ => Except.error "consumer failed") = WriteStatus.abort
    ∧ encoderWriteCallback [9, 9] 2 1 0
        (fun _ _ _ _ => Except.error "consumer failed")
        = EncoderWriteStatus.fatalError :=
  writeCallback_consumer_exception
    { blocksize := 2, channels := 1, bitsPerSample := 16, sampleRate := 8000 }
    [[1, 2]] (fun _ _ _ _ => Except.error "consumer failed")
    [9, 9] 2 1 0 (fun _ _ _ _ => Except.error "consumer failed")
    "consumer failed" "consumer failed" rfl rfl rfl

/-- C8 as stated is false on the code: with a fatal decode error
recorded, `StreamDecoder.finish` raises `DecoderProcessException`, and
a second call in a row raises it again instead of returning success. -/
theorem finish_after_error_refuted :
    (StreamDecoder.finish
        { error := some "A fatal read, write, or memory allocation error occurred",
          done := false, buffer := [], threadAlive := true,
          engine := { initialized := true, lastFrameError := false } }).1
      = some "A fatal read, write, or memory allocation error occurred"
    ∧ (StreamDecoder.finish
        (StreamDecoder.finish
          { error := some "A fatal read, write, or memory allocation error occurred",
            done := false, buffer := [], threadAlive := true,
            engine := { initialized := true, lastFrameError := false } }).2).1
      ≠ none := by
  decide

/-- C8 amended: a second finish call in a row performs no further state
change, for the encoder and the stream decoder alike; it returns
success for the encoder (`True`), and returns without raising for the
decoder exactly when no decode error has been recorded — with an error
recorded, the first and the second decoder call alike raise
`DecoderProcessException` carrying the recorded message. -/
theorem finish_idempotent (est : EngineState) (st : StreamDecoderState) :
    Encoder.finish (Encoder.finish est).2 = (true, (Encoder.finish est).2)
    ∧ StreamDecoder.finish (StreamDecoder.finish st).2
        = ((StreamDecoder.finish st).1, (StreamDecoder.finish st).2)
    ∧ (StreamDecoder.finish st).1 = st.error := by
  refine ⟨?_, ?_, rfl⟩
  · unfold Encoder.finish engineFinish
    by_cases h : est.initialized <;> simp [h]
  · unfold StreamDecoder.finish engineFinish
    by_cases h : st.engine.initialized <;> simp [h]

/-- C9: a decoded frame whose header reports a bit depth other than 16
makes the decoder write callback raise
`ValueError('Only int16 data type is supported')` before any user
callback runs, so the abort status is returned to the engine. -/
theorem writeCallback_requires_int16 (frame : FrameHeader)
    (buffer : List (List Int))
    (cb : List (List Int) → Nat → Nat → Nat → Except String Unit)
    (h : frame.bitsPerSample ≠ 16) :
    decoderWriteCallbackBody frame buffer cb
        = Except.error "Only int16 data type is supported"
    ∧ decoderWriteCallback frame buffer cb = WriteStatus.abort := by
  constructor
  · simp [decoderWriteCallbackBody, h]
  · simp [decoderWriteCallback, decoderWriteCallbackBody, h]

/-- Witness for C9: a 24-bit frame is rejected with `ValueError` and the
abort status, whatever the user callback would do. -/
theorem writeCallback_requires_int16_witness :
    decoderWriteCallbackBody
        ({ blocksize := 1024, channels := 2,
           bitsPerSample := 24, sampleRate := 44100 }) []
        (fun _ _ _ _ => Except.ok ())
        = Except.error "Only int16 data type is supported"
    ∧ decoderWriteCallback
        ({ blocksize := 1024, channels := 2,
           bitsPerSample := 24, sampleRate := 44100 }) []
        (fun _ _ _ _ => Except.ok ()) = WriteStatus.abort :=
  writeCallback_requires_int16
    { blocksize := 1024, channels := 2, bitsPerSample := 24, sampleRate := 44100 }
    [] (fun _ _ _ _ => Except.ok ()) (by decide)
